import Mathlib

/-!
Shallow embedding of the etherscan.io-rs client (src/src/lib.rs and
src/src/models.rs) together with proofs of the specified properties.

Machine integers of the source (u64, u128) are modelled as Nat; where the
source checks for overflow explicitly (u128 decimal parsing), the bound
2 ^ 128 appears explicitly.  Fallible Rust functions returning Result are
modelled with Except.  Effectful parts (HTTP transport, JSON structural
decoding) are factored out: each endpoint's pure request-building and
response-unwrapping logic is embedded as a function on the already-decoded
envelope fields.
-/

namespace Etherscan

/-- The tri-state status code of the response envelope
(enum StatusCode in src/src/lib.rs). -/
inductive StatusCode
  | Ok
  | Error
  | Unknown
deriving DecidableEq, Repr

/-- Embeds impl FromStr for StatusCode (src/src/lib.rs lines 87-97):
the string "1" parses to Ok, "0" parses to Error, and anything else is
rejected with the Unknown code as the error value. -/
def StatusCode.from_str (s : String) : Except StatusCode StatusCode :=
  if s = "1" then .ok .Ok
  else if s = "0" then .ok .Error
  else .error .Unknown

/-- Modelled from the spec: the serde helper from_str in src/format.rs is
not present under src/.  The spec states "Status classification never
raises; unparseable status strings map to Unknown rather than failing",
so the deserialization glue collapses the FromStr result into the status
code it carries on either side. -/
def classifyStatus (s : String) : StatusCode :=
  match StatusCode.from_str s with
  | .ok c => c
  | .error c => c

/-- The generic response envelope (struct Response<T> in src/src/lib.rs).
The status field holds the already-classified status code. -/
structure Response (T : Type u) where
  status : StatusCode
  message : String
  result : T
deriving Repr

/-- The structured envelope error (struct ResponseError<R> in
src/src/lib.rs lines 43-51). -/
structure ResponseError (R : Type u) where
  status_code : StatusCode
  message : String
  result : R
deriving Repr

/-- Embeds Response::result_or_error (src/src/lib.rs lines 33-40): on
status Error, a ResponseError carrying the envelope's status, message and
result; on any other status, the result payload. -/
def Response.result_or_error (r : Response T) : Except (ResponseError T) T :=
  match r.status with
  | .Error => .error ⟨r.status, r.message, r.result⟩
  | _ => .ok r.result

/-- A raw envelope, as it arrives with the status still a string, pushed
through status classification into a typed Response.  This is the
composition of the serde from_str deserialization of the status field
with construction of Response<T>. -/
def decodeEnvelope (status message : String) (result : T) : Response T :=
  ⟨classifyStatus status, message, result⟩

theorem classifyStatus_one : classifyStatus "1" = .Ok := rfl

theorem classifyStatus_zero : classifyStatus "0" = .Error := rfl

theorem classifyStatus_other (s : String) (h1 : s ≠ "1") (h0 : s ≠ "0") :
    classifyStatus s = .Unknown := by
  simp [classifyStatus, StatusCode.from_str, h1, h0]

/-- C1: every envelope whose status string is "1" is classified as
StatusCode::Ok, and result_or_error returns success carrying exactly the
envelope's result payload, unchanged. -/
theorem c1_status_one_yields_payload {T : Type u} (message : String) (result : T) :
    classifyStatus "1" = .Ok ∧
    (decodeEnvelope "1" message result).result_or_error = .ok result := by
  exact ⟨rfl, rfl⟩

/-- C2: every envelope whose status string is "0" is classified as
StatusCode::Error, and result_or_error returns a ResponseError whose
embedded status code, message and result payload equal the input
envelope's. -/
theorem c2_status_zero_yields_structured_error {T : Type u} (message : String) (result : T) :
    classifyStatus "0" = .Error ∧
    (decodeEnvelope "0" message result).result_or_error =
      .error ⟨.Error, message, result⟩ := by
  exact ⟨rfl, rfl⟩

/-- C3: every status string other than "1" and "0" is classified as
Unknown without the classification failing, and decoding such an envelope
yields success carrying the payload (the permissive policy). -/
theorem c3_unknown_status_permissive {T : Type u} (s message : String) (result : T)
    (h1 : s ≠ "1") (h0 : s ≠ "0") :
    classifyStatus s = .Unknown ∧
    (decodeEnvelope s message result).result_or_error = .ok result := by
  refine ⟨classifyStatus_other s h1 h0, ?_⟩
  simp [decodeEnvelope, Response.result_or_error, classifyStatus_other s h1 h0]

/-- Witness for C3 at the concrete status string "2". -/
theorem c3_unknown_status_permissive_witness :
    classifyStatus "2" = .Unknown ∧
    (decodeEnvelope "2" "NOTOK" (42 : Nat)).result_or_error = .ok 42 :=
  c3_unknown_status_permissive "2" "NOTOK" 42 (by decide) (by decide)

/-! ## Receipt and execution status records (src/src/models.rs) -/

/-- The two-valued receipt status (enum ReceiptStatus in src/src/models.rs). -/
inductive ReceiptStatus
  | Pass
  | Fail
deriving DecidableEq, Repr

/-- The record behind the gettxreceiptstatus endpoint (struct
TransactionReceiptStatus in src/src/models.rs); the status field is a u64
decoded from a numeric string. -/
structure TransactionReceiptStatus where
  status : Nat
deriving DecidableEq, Repr

/-- Embeds the method TransactionReceiptStatus::status (src/src/models.rs
lines 137-144); named receipt_status because in Lean the method cannot
share the name of the status field it matches on. -/
def TransactionReceiptStatus.receipt_status (r : TransactionReceiptStatus) : ReceiptStatus :=
  match r.status with
  | 1 => .Pass
  | _ => .Fail

/-- The contract execution outcome (enum ExecutionStatus in
src/src/models.rs). -/
inductive ExecutionStatus
  | Pass
  | Error (status_code : Nat) (description : String)
deriving DecidableEq, Repr

/-- The record behind the getstatus endpoint (struct
ContractExecutionStatus in src/src/models.rs); is_error is a u64 decoded
from a numeric string. -/
structure ContractExecutionStatus where
  is_error : Nat
  err_description : String
deriving DecidableEq, Repr

/-- Embeds the method ContractExecutionStatus::status (src/src/models.rs
lines 159-166). -/
def ContractExecutionStatus.status (s : ContractExecutionStatus) : ExecutionStatus :=
  match s.is_error with
  | 0 => .Pass
  | _ => .Error s.is_error s.err_description

/-- C9: TransactionReceiptStatus::status returns Pass exactly when the
decoded status field equals 1, and Fail for every other value. -/
theorem c9_receipt_status_pass_iff_one (r : TransactionReceiptStatus) :
    (r.receipt_status = .Pass ↔ r.status = 1) ∧
    (r.status ≠ 1 → r.receipt_status = .Fail) := by
  constructor
  · constructor
    · intro h
      by_contra hne
      have : r.receipt_status = .Fail := by
        unfold TransactionReceiptStatus.receipt_status
        split
        · exact absurd (by assumption) hne
        · rfl
      rw [this] at h
      exact ReceiptStatus.noConfusion h
    · intro h
      unfold TransactionReceiptStatus.receipt_status
      rw [h]
  · intro hne
    unfold TransactionReceiptStatus.receipt_status
    split
    · exact absurd (by assumption) hne
    · rfl

/-- Witness for C9 at the concrete status values 0 and 1. -/
theorem c9_receipt_status_pass_iff_one_witness :
    TransactionReceiptStatus.receipt_status ⟨1⟩ = .Pass ∧
    TransactionReceiptStatus.receipt_status ⟨0⟩ = .Fail ∧
    TransactionReceiptStatus.receipt_status ⟨7⟩ = .Fail :=
  ⟨(c9_receipt_status_pass_iff_one ⟨1⟩).1.2 rfl,
   (c9_receipt_status_pass_iff_one ⟨0⟩).2 (by decide),
   (c9_receipt_status_pass_iff_one ⟨7⟩).2 (by decide)⟩

/-- C10: ContractExecutionStatus::status returns Pass exactly when the
decoded is_error field equals 0, and otherwise an Error variant carrying
exactly that is_error value and the record's err_description. -/
theorem c10_execution_status_pass_iff_zero (s : ContractExecutionStatus) :
    (s.status = .Pass ↔ s.is_error = 0) ∧
    (s.is_error ≠ 0 → s.status = .Error s.is_error s.err_description) := by
  constructor
  · constructor
    · intro h
      by_contra hne
      have : s.status = .Error s.is_error s.err_description := by
        unfold ContractExecutionStatus.status
        split
        · exact absurd (by assumption) hne
        · rfl
      rw [this] at h
      exact ExecutionStatus.noConfusion h
    · intro h
      unfold ContractExecutionStatus.status
      rw [h]
  · intro hne
    unfold ContractExecutionStatus.status
    split
    · exact absurd (by assumption) hne
    · rfl

/-- Witness for C10 at concrete is_error values 0 and 2. -/
theorem c10_execution_status_pass_iff_zero_witness :
    ContractExecutionStatus.status ⟨0, ""⟩ = .Pass ∧
    ContractExecutionStatus.status ⟨2, "out of gas"⟩ = .Error 2 "out of gas" :=
  ⟨(c10_execution_status_pass_iff_zero ⟨0, ""⟩).1.2 rfl,
   (c10_execution_status_pass_iff_zero ⟨2, "out of gas"⟩).2 (by decide)⟩

/-! ## Request building (src/src/lib.rs) -/

/-- The fixed base endpoint (const BASE_URL in src/src/lib.rs). -/
def BASE_URL : String := "https://api.etherscan.io/api"

/-- The name of the credential environment variable (const
ETHERSCANIO_API_TOKEN in src/src/lib.rs). -/
def ETHERSCANIO_API_TOKEN : String := "ETHERSCANIO_API_TOKEN"

/-- Embeds fn parse_block_range (src/src/lib.rs lines 282-287): an upper
bound of 0 is the sentinel for no range filter and yields the empty
string; otherwise both bounds are rendered literally. -/
def parse_block_range (from_block to_block : Nat) : String :=
  if to_block = 0 then ""
  else "&startblock=" ++ Nat.repr from_block ++ "&endblock=" ++ Nat.repr to_block

/-- The client handle (struct API in src/src/lib.rs).  The reqwest
transport handle carries no observable state and is omitted. -/
structure API where
  api_token : String
deriving DecidableEq, Repr

/-- Embeds API::new (src/src/lib.rs lines 105-107). -/
def API.new (api_token : String) : API := ⟨api_token⟩

/-- The error returned by std::env::var, as used by API::new_from_env. -/
inductive VarError
  | NotPresent
  | NotUnicode
deriving DecidableEq, Repr

/-- Embeds API::new_from_env (src/src/lib.rs lines 109-112).  The process
environment is modelled as a partial map from variable names to values;
std::env::var returns VarError::NotPresent when the variable is absent.
The function performs no network request: it only reads the environment
and stores the credential. -/
def API.new_from_env (env : String → Option String) : Except VarError API :=
  match env ETHERSCANIO_API_TOKEN with
  | none => .error .NotPresent
  | some v => .ok ⟨v⟩

/-- Embeds the query built by API::txs_on_account_from_to
(src/src/lib.rs lines 166-167). -/
def txs_on_account_from_to_uri (api : API) (account_addr : String)
    (from_block end_block : Nat) : String :=
  BASE_URL ++ "?module=account&action=txlist&address=" ++ account_addr ++
    parse_block_range from_block end_block ++ "&sort=asc&apikey=" ++ api.api_token

/-- Embeds the query built by API::txs_on_account (src/src/lib.rs lines
175-177), which delegates to the from_to variant with bounds (0, 0). -/
def txs_on_account_uri (api : API) (account_addr : String) : String :=
  txs_on_account_from_to_uri api account_addr 0 0

/-- Embeds the query built by API::internal_txs_on_account_from_to
(src/src/lib.rs lines 179-180). -/
def internal_txs_on_account_from_to_uri (api : API) (account_addr : String)
    (from_block end_block : Nat) : String :=
  BASE_URL ++ "?module=account&action=txlistinternal&address=" ++ account_addr ++
    parse_block_range from_block end_block ++ "&sort=asc&apikey=" ++ api.api_token

/-- Embeds the query built by API::internal_txs_on_account
(src/src/lib.rs lines 188-190). -/
def internal_txs_on_account_uri (api : API) (addr : String) : String :=
  internal_txs_on_account_from_to_uri api addr 0 0

/-- Embeds the query built by API::erc20_transfers_on_account_from_to
(src/src/lib.rs lines 210-211). -/
def erc20_transfers_on_account_from_to_uri (api : API) (account_addr : String)
    (from_block end_block : Nat) : String :=
  BASE_URL ++ "?module=account&action=tokentx&address=" ++ account_addr ++
    parse_block_range from_block end_block ++ "&sort=asc&apikey=" ++ api.api_token

/-- Embeds the query built by API::erc20_transfer_events_on_account
(src/src/lib.rs lines 219-221). -/
def erc20_transfer_events_on_account_uri (api : API) (account_addr : String) : String :=
  erc20_transfers_on_account_from_to_uri api account_addr 0 0

/-- Embeds the query built by API::erc271_transfers_on_account_from_to
(src/src/lib.rs lines 232-233). -/
def erc271_transfers_on_account_from_to_uri (api : API) (account_addr : String)
    (from_block end_block : Nat) : String :=
  BASE_URL ++ "?module=account&action=tokennfttx&address=" ++ account_addr ++
    parse_block_range from_block end_block ++ "&sort=asc&apikey=" ++ api.api_token

/-- Embeds the query built by API::erc271_transfers_on_account
(src/src/lib.rs lines 241-243). -/
def erc271_transfers_on_account_uri (api : API) (account_addr : String) : String :=
  erc271_transfers_on_account_from_to_uri api account_addr 0 0

/-- C5: an upper bound of 0 yields no range parameters (the empty
string, so the built query is unchanged), while an upper bound greater
than 0 yields both a startblock and an endblock parameter rendering the
supplied bounds literally (shown on the txlist query, where they appear
between the address and the sort parameters). -/
theorem c5_parse_block_range_sentinel (api : API) (addr : String) (f t : Nat) :
    (t = 0 → parse_block_range f t = "") ∧
    (0 < t →
      parse_block_range f t =
        "&startblock=" ++ Nat.repr f ++ "&endblock=" ++ Nat.repr t ∧
      txs_on_account_from_to_uri api addr f t =
        (BASE_URL ++ "?module=account&action=txlist&address=" ++ addr) ++
          ("&startblock=" ++ Nat.repr f ++ "&endblock=" ++ Nat.repr t) ++
          ("&sort=asc&apikey=" ++ api.api_token)) := by
  constructor
  · intro h
    simp [parse_block_range, h]
  · intro h
    have ht : t ≠ 0 := Nat.pos_iff_ne_zero.mp h
    constructor
    · simp [parse_block_range, ht]
    · simp [txs_on_account_from_to_uri, parse_block_range, ht, String.append_assoc]

/-- Witness for C5 at the concrete bounds (5, 0) and (5, 7). -/
theorem c5_parse_block_range_sentinel_witness :
    parse_block_range 5 0 = "" ∧
    parse_block_range 5 7 = "&startblock=" ++ Nat.repr 5 ++ "&endblock=" ++ Nat.repr 7 :=
  ⟨(c5_parse_block_range_sentinel ⟨"k"⟩ "a" 5 0).1 rfl,
   ((c5_parse_block_range_sentinel ⟨"k"⟩ "a" 5 7).2 (by decide)).1⟩

/-- C7: API::new_from_env returns VarError when the credential variable
ETHERSCANIO_API_TOKEN is absent from the environment (no client is
constructed, so no request can be made), and constructs the client with
the variable's value as its credential when it is present. -/
theorem c7_new_from_env (env : String → Option String) :
    (env ETHERSCANIO_API_TOKEN = none →
      API.new_from_env env = .error .NotPresent) ∧
    (∀ v, env ETHERSCANIO_API_TOKEN = some v →
      API.new_from_env env = .ok ⟨v⟩) := by
  constructor
  · intro h
    simp [API.new_from_env, h]
  · intro v h
    simp [API.new_from_env, h]

/-- Witness for C7 on an empty environment and on an environment binding
the credential variable to "secret". -/
theorem c7_new_from_env_witness :
    API.new_from_env (fun _ => none) = .error .NotPresent ∧
    API.new_from_env (fun _ => some "secret") = .ok ⟨"secret"⟩ :=
  ⟨(c7_new_from_env (fun _ => none)).1 rfl,
   (c7_new_from_env (fun _ => some "secret")).2 "secret" rfl⟩

/-- C8: each no-range convenience query equals its from_to variant at
bounds (0, 0), and that query equals the range-free skeleton: the range
segment contributed by parse_block_range is empty, so no startblock or
endblock parameter appears in it. -/
theorem c8_convenience_queries_have_no_range (api : API) (addr : String) :
    (txs_on_account_uri api addr = txs_on_account_from_to_uri api addr 0 0 ∧
      txs_on_account_uri api addr =
        BASE_URL ++ "?module=account&action=txlist&address=" ++ addr ++
          "&sort=asc&apikey=" ++ api.api_token) ∧
    (internal_txs_on_account_uri api addr =
        internal_txs_on_account_from_to_uri api addr 0 0 ∧
      internal_txs_on_account_uri api addr =
        BASE_URL ++ "?module=account&action=txlistinternal&address=" ++ addr ++
          "&sort=asc&apikey=" ++ api.api_token) ∧
    (erc20_transfer_events_on_account_uri api addr =
        erc20_transfers_on_account_from_to_uri api addr 0 0 ∧
      erc20_transfer_events_on_account_uri api addr =
        BASE_URL ++ "?module=account&action=tokentx&address=" ++ addr ++
          "&sort=asc&apikey=" ++ api.api_token) ∧
    (erc271_transfers_on_account_uri api addr =
        erc271_transfers_on_account_from_to_uri api addr 0 0 ∧
      erc271_transfers_on_account_uri api addr =
        BASE_URL ++ "?module=account&action=tokennfttx&address=" ++ addr ++
          "&sort=asc&apikey=" ++ api.api_token) := by
  refine ⟨⟨rfl, ?_⟩, ⟨rfl, ?_⟩, ⟨rfl, ?_⟩, ⟨rfl, ?_⟩⟩ <;>
    simp [txs_on_account_uri, txs_on_account_from_to_uri,
      internal_txs_on_account_uri, internal_txs_on_account_from_to_uri,
      erc20_transfer_events_on_account_uri, erc20_transfers_on_account_from_to_uri,
      erc271_transfers_on_account_uri, erc271_transfers_on_account_from_to_uri,
      parse_block_range, String.append_empty]

/-! ## Numeric coercion (Balance::value, src/src/models.rs lines 11-15)

Balance::value is String::parse::<u128>(), i.e. u128::from_str in base
10: an optional leading plus sign followed by ASCII digits, accumulated
with overflow-checked multiply-and-add against the u128 bound.  A lone
sign, an empty string, a non-digit character, or a value reaching 2 ^ 128
is rejected with the corresponding ParseIntError kind. -/

/-- The kinds of std::num::ParseIntError that u128 parsing can produce. -/
inductive IntErrorKind
  | Empty
  | InvalidDigit
  | PosOverflow
deriving DecidableEq, Repr

/-- One more than the largest value representable in a u128. -/
def U128_MOD : Nat := 2 ^ 128

/-- Numeric value of an ASCII digit character. -/
def charDigit (c : Char) : Nat := c.toNat - 48

/-- The digit-accumulation loop of u128::from_str_radix in base 10:
each character must be an ASCII digit, and every intermediate value must
stay below 2 ^ 128 (Rust's checked_mul / checked_add). -/
def parseDigits (acc : Nat) : List Char → Except IntErrorKind Nat
  | [] => .ok acc
  | c :: cs =>
    if c.isDigit then
      if acc * 10 + charDigit c < U128_MOD then
        parseDigits (acc * 10 + charDigit c) cs
      else .error .PosOverflow
    else .error .InvalidDigit

/-- Embeds u128::from_str as invoked by String::parse::<u128>() in
Balance::value: empty input is Empty, a lone plus sign or a leading minus
sign is InvalidDigit (u128 is unsigned), otherwise the digit loop runs on
the remaining characters. -/
def u128_from_str (s : String) : Except IntErrorKind Nat :=
  match s.data with
  | [] => .error .Empty
  | c :: cs =>
    if c = '+' then
      match cs with
      | [] => .error .InvalidDigit
      | _ :: _ => parseDigits 0 cs
    else if c = '-' then .error .InvalidDigit
    else parseDigits 0 (c :: cs)

/-- The numeric payload record (tuple struct Balance(String) in
src/src/models.rs). -/
structure Balance where
  raw : String
deriving DecidableEq, Repr

/-- Embeds Balance::value (src/src/models.rs lines 11-15). -/
def Balance.value (b : Balance) : Except IntErrorKind Nat :=
  u128_from_str b.raw

/-- The character for a single decimal digit. -/
def digitChar (d : Nat) : Char := Char.ofNat (48 + d)

/-- Decimal digit list of a natural number, most significant first;
models the output of Rust's Display for u128. -/
def reprDigits (n : Nat) : List Char :=
  if n < 10 then [digitChar n]
  else reprDigits (n / 10) ++ [digitChar (n % 10)]
termination_by n
decreasing_by
  simp_wf
  omega

/-- Decimal formatting of an unsigned integer, modelling the Rust side
format of the round trip (format with the Display trait). -/
def u128_to_string (n : Nat) : String := ⟨reprDigits n⟩

/-- Value denoted by a digit list continuing from an accumulator. -/
def digitsValFrom (acc : Nat) (l : List Char) : Nat :=
  l.foldl (fun a c => a * 10 + charDigit c) acc

/-- Value denoted by a decimal digit list. -/
def digitsVal (l : List Char) : Nat := digitsValFrom 0 l

/-- The strings accepted as decimal u128 representations by
u128::from_str: an optional leading plus sign, then at least one ASCII
digit, denoting a value below 2 ^ 128. -/
def validU128String (s : String) : Bool :=
  match s.data with
  | [] => false
  | c :: cs =>
    if c = '+' then
      (!cs.isEmpty) && cs.all Char.isDigit && decide (digitsVal cs < U128_MOD)
    else
      (c :: cs).all Char.isDigit && decide (digitsVal (c :: cs) < U128_MOD)

theorem digitsValFrom_cons (acc : Nat) (c : Char) (cs : List Char) :
    digitsValFrom acc (c :: cs) = digitsValFrom (acc * 10 + charDigit c) cs := rfl

theorem digitsValFrom_append (acc : Nat) (l1 l2 : List Char) :
    digitsValFrom acc (l1 ++ l2) = digitsValFrom (digitsValFrom acc l1) l2 := by
  simp [digitsValFrom, List.foldl_append]

theorem le_digitsValFrom (l : List Char) : ∀ acc : Nat, acc ≤ digitsValFrom acc l := by
  induction l with
  | nil => intro acc; exact Nat.le_refl acc
  | cons c cs ih =>
    intro acc
    rw [digitsValFrom_cons]
    exact le_trans (by omega) (ih (acc * 10 + charDigit c))

theorem parseDigits_ok_of (l : List Char) : ∀ acc : Nat,
    l.all Char.isDigit = true → digitsValFrom acc l < U128_MOD →
    parseDigits acc l = .ok (digitsValFrom acc l) := by
  induction l with
  | nil => intro acc _ _; rfl
  | cons c cs ih =>
    intro acc hall hlt
    rw [List.all_cons, Bool.and_eq_true] at hall
    rw [digitsValFrom_cons] at hlt ⊢
    have hstep : acc * 10 + charDigit c < U128_MOD :=
      lt_of_le_of_lt (le_digitsValFrom cs (acc * 10 + charDigit c)) hlt
    simp only [parseDigits, hall.1, if_pos hstep, if_true]
    exact ih (acc * 10 + charDigit c) hall.2 hlt

theorem parseDigits_ok_inv (l : List Char) : ∀ acc v : Nat, acc < U128_MOD →
    parseDigits acc l = .ok v →
    l.all Char.isDigit = true ∧ v = digitsValFrom acc l ∧ v < U128_MOD := by
  induction l with
  | nil =>
    intro acc v hacc h
    simp only [parseDigits, Except.ok.injEq] at h
    exact ⟨rfl, h.symm, h ▸ hacc⟩
  | cons c cs ih =>
    intro acc v hacc h
    simp only [parseDigits] at h
    by_cases hd : c.isDigit
    · rw [if_pos hd] at h
      by_cases hof : acc * 10 + charDigit c < U128_MOD
      · rw [if_pos hof] at h
        obtain ⟨h1, h2, h3⟩ := ih (acc * 10 + charDigit c) v hof h
        exact ⟨by simp [hd, h1], by rw [digitsValFrom_cons]; exact h2, h3⟩
      · rw [if_neg hof] at h
        exact absurd h (by simp)
    · rw [if_neg hd] at h
      exact absurd h (by simp)

theorem parseDigits_error_of (l : List Char) (acc : Nat) (hacc : acc < U128_MOD)
    (h : ¬ (l.all Char.isDigit = true ∧ digitsValFrom acc l < U128_MOD)) :
    ∃ e, parseDigits acc l = .error e := by
  cases hres : parseDigits acc l with
  | ok v =>
    obtain ⟨h1, h2, h3⟩ := parseDigits_ok_inv l acc v hacc hres
    exact absurd ⟨h1, h2 ▸ h3⟩ h
  | error e => exact ⟨e, rfl⟩

theorem charDigit_digitChar (d : Nat) (hd : d < 10) :
    charDigit (digitChar d) = d ∧ (digitChar d).isDigit = true := by
  interval_cases d <;> exact ⟨by decide, by decide⟩

theorem reprDigits_ne_nil (n : Nat) : reprDigits n ≠ [] := by
  rw [reprDigits]
  split
  · simp
  · simp

theorem reprDigits_all_digits (n : Nat) : (reprDigits n).all Char.isDigit = true := by
  induction n using Nat.strong_induction_on with
  | _ n ih =>
    rw [reprDigits]
    split
    · simp [(charDigit_digitChar n (by omega)).2]
    · rename_i h
      rw [List.all_append, Bool.and_eq_true]
      refine ⟨ih (n / 10) (by omega), ?_⟩
      simp [(charDigit_digitChar (n % 10) (by omega)).2]

theorem digitsVal_reprDigits (n : Nat) : digitsVal (reprDigits n) = n := by
  induction n using Nat.strong_induction_on with
  | _ n ih =>
    simp only [digitsVal] at ih ⊢
    rw [reprDigits]
    split
    · rename_i h
      simp [digitsValFrom, (charDigit_digitChar n h).1]
    · rename_i h
      rw [digitsValFrom_append, ih (n / 10) (by omega), digitsValFrom_cons]
      simp only [digitsValFrom, List.foldl_nil]
      rw [(charDigit_digitChar (n % 10) (by omega)).1]
      omega

theorem isDigit_ne_sign (c : Char) (h : c.isDigit = true) : c ≠ '+' ∧ c ≠ '-' := by
  constructor <;> rintro rfl <;> simp [Char.isDigit] at h

theorem U128_MOD_pos : 0 < U128_MOD := by
  unfold U128_MOD
  positivity

theorem u128_from_str_digits (c : Char) (cs : List Char)
    (hall : (c :: cs).all Char.isDigit = true)
    (hlt : digitsVal (c :: cs) < U128_MOD) :
    u128_from_str ⟨c :: cs⟩ = .ok (digitsVal (c :: cs)) := by
  have hcd : c.isDigit = true := by
    rw [List.all_cons, Bool.and_eq_true] at hall
    exact hall.1
  obtain ⟨h1, h2⟩ := isDigit_ne_sign c hcd
  simp only [u128_from_str, if_neg h1, if_neg h2]
  exact parseDigits_ok_of (c :: cs) 0 hall hlt

theorem u128_roundtrip (n : Nat) (hn : n < U128_MOD) :
    u128_from_str (u128_to_string n) = .ok n := by
  unfold u128_to_string
  cases hrep : reprDigits n with
  | nil => exact absurd hrep (reprDigits_ne_nil n)
  | cons c cs =>
    have hall := reprDigits_all_digits n
    have hval := digitsVal_reprDigits n
    rw [hrep] at hall hval
    rw [u128_from_str_digits c cs hall (by rw [hval]; exact hn), hval]

theorem u128_from_str_invalid (s : String) (h : validU128String s = false) :
    ∃ e, u128_from_str s = .error e := by
  obtain ⟨l⟩ := s
  cases l with
  | nil => exact ⟨.Empty, rfl⟩
  | cons c cs =>
    by_cases hplus : c = '+'
    · subst hplus
      cases cs with
      | nil => exact ⟨.InvalidDigit, rfl⟩
      | cons d ds =>
        simp only [validU128String, if_pos rfl] at h
        simp only [u128_from_str, if_pos rfl]
        refine parseDigits_error_of _ 0 U128_MOD_pos ?_
        rintro ⟨h1, h2⟩
        simp [h1, digitsVal, h2] at h
    · by_cases hminus : c = '-'
      · subst hminus
        exact ⟨.InvalidDigit, by simp [u128_from_str]⟩
      · simp only [validU128String, if_neg hplus] at h
        simp only [u128_from_str, if_neg hplus, if_neg hminus]
        refine parseDigits_error_of _ 0 U128_MOD_pos ?_
        rintro ⟨h1, h2⟩
        simp [h1, digitsVal, h2] at h

/-- C4: formatting an unsigned 128-bit integer to its decimal string and
coercing it back through Balance::value yields the integer unchanged, and
on every string that is not a valid decimal u128 representation the
coercion returns a ParseIntError value (it never panics: the function is
total and every non-accepted input lands in the error case). -/
theorem c4_balance_value_coercion (n : Nat) (s : String)
    (hn : n < U128_MOD) (hs : validU128String s = false) :
    Balance.value ⟨u128_to_string n⟩ = .ok n ∧
    ∃ e, Balance.value ⟨s⟩ = .error e :=
  ⟨u128_roundtrip n hn, u128_from_str_invalid s hs⟩

/-- Witness for C4 at the wei value of one ether and the malformed
payload "12x". -/
theorem c4_balance_value_coercion_witness :
    (1000000000000000000 < U128_MOD ∧ validU128String "12x" = false) ∧
    (Balance.value ⟨u128_to_string 1000000000000000000⟩ = .ok 1000000000000000000 ∧
      ∃ e, Balance.value ⟨"12x"⟩ = .error e) :=
  ⟨⟨by norm_num [U128_MOD], by decide⟩,
   c4_balance_value_coercion 1000000000000000000 "12x" (by norm_num [U128_MOD]) (by decide)⟩

/-! ## The balance endpoint pipeline (API::fetch_balance) -/

/-- The two error shapes API::fetch_balance (src/src/lib.rs lines
114-126) can produce once transport and JSON structural decoding have
succeeded: the boxed ResponseError from result_or_error, or the boxed
ParseIntError from Balance::value. -/
inductive FetchBalanceError
  | envelope (e : ResponseError Balance)
  | coercion (e : IntErrorKind)
deriving Repr

/-- Embeds the response-processing core of API::fetch_balance: unwrap the
envelope with result_or_error, then coerce the payload with
Balance::value. -/
def fetch_balance_core (r : Response Balance) : Except FetchBalanceError Nat :=
  match r.result_or_error with
  | .error e => .error (.envelope e)
  | .ok b =>
    match b.value with
    | .ok v => .ok v
    | .error e => .error (.coercion e)

/-- C6: in the balance pipeline the envelope error and the coercion
error are distinct and mutually exclusive: an Error status always
produces the envelope error (never a coercion error, whatever the
payload), and a non-Error status never produces an envelope error, with
a malformed payload surfacing exactly as the coercion error. -/
theorem c6_fetch_balance_error_distinction (r : Response Balance) :
    (r.status = .Error →
      fetch_balance_core r = .error (.envelope ⟨r.status, r.message, r.result⟩) ∧
      ∀ e, fetch_balance_core r ≠ .error (.coercion e)) ∧
    (r.status ≠ .Error →
      (∀ e, fetch_balance_core r ≠ .error (.envelope e)) ∧
      (∀ e, r.result.value = .error e →
        fetch_balance_core r = .error (.coercion e))) ∧
    (∀ e e', (FetchBalanceError.envelope e : FetchBalanceError) ≠ .coercion e') := by
  obtain ⟨st, msg, res⟩ := r
  refine ⟨?_, ?_, fun e e' h => FetchBalanceError.noConfusion h⟩
  · intro hst
    have hst' : st = .Error := hst
    subst hst'
    exact ⟨rfl, fun e h => by simp [fetch_balance_core, Response.result_or_error] at h⟩
  · intro hne
    have hok : Response.result_or_error ⟨st, msg, res⟩ = .ok res := by
      cases st
      · rfl
      · exact absurd rfl hne
      · rfl
    constructor
    · intro e h
      simp only [fetch_balance_core, hok] at h
      cases hv : res.value <;> rw [hv] at h <;> simp at h
    · intro e hv
      simp only [fetch_balance_core, hok, hv]

/-- Witness for C6: an Error envelope around a well-formed payload gives
the envelope error, and an Ok envelope around a malformed payload gives
the coercion error. -/
theorem c6_fetch_balance_error_distinction_witness :
    fetch_balance_core ⟨.Error, "NOTOK", ⟨"0"⟩⟩ =
      .error (.envelope ⟨.Error, "NOTOK", ⟨"0"⟩⟩) ∧
    fetch_balance_core ⟨.Ok, "OK", ⟨"12x"⟩⟩ = .error (.coercion .InvalidDigit) :=
  ⟨((c6_fetch_balance_error_distinction ⟨.Error, "NOTOK", ⟨"0"⟩⟩).1 rfl).1,
   ((c6_fetch_balance_error_distinction ⟨.Ok, "OK", ⟨"12x"⟩⟩).2.1 (by decide)).2
     .InvalidDigit rfl⟩

end Etherscan
